import Mathlib

/-!
Verification of the OAuth2/OIDC authorization-server core of the
`sso-telechubbiies` backend (FastAPI application under `backend/app`).

The Python source is shallowly embedded here:

* `backend/app/core/security.py` — PKCE verification (`verify_code_challenge`),
  token hashing (`hash_token`), signing-key resolution (`_load_or_generate_keys`).
  SHA-256 and the url-safe base64 encoder (Python's `hashlib` / `base64`) are
  implemented concretely, byte-for-byte, so everything is executable.
* `backend/app/models/*.py` — the persisted records (`OAuthClient`,
  `OAuthAuthorizationCode`, `RefreshToken`, `User`) with their validity
  predicates.
* `backend/app/api/v1/endpoints/oauth.py` — the `authorize`, `token`
  (authorization_code and refresh_token grants) and `revoke` endpoints, as
  pure functions from a database state (lists of records) plus the request to
  a result and the committed database state.  The asyncpg session's commit
  points are modelled exactly: a raised `HTTPException` returns the state as
  of the last `commit()`.

External collaborators (bcrypt via passlib, the JOSE signer, randomness and
the wall clock) are passed as explicit parameters: the endpoints receive the
current time, the freshly generated random material, and a password-verify
oracle, and the minted JWTs are represented by their claim payloads.
-/

namespace SSO

/-! ## Bytes, hex, ASCII / UTF-8 codecs -/

/-- Lower-case hex digit for a value `< 16` (as in Python's `hexdigest`). -/
def hexDigit (n : Nat) : Char :=
  (("0123456789abcdef".data).getD n '0')

/-- A byte as two lower-case hex characters. -/
def byteToHex (b : Nat) : List Char :=
  [hexDigit (b / 16), hexDigit (b % 16)]

/-- A byte list as a lower-case hex string (Python `bytes.hex`, the format of
`hashlib.sha256(..).hexdigest()`). -/
def bytesToHex (bs : List Nat) : String :=
  String.mk (bs.foldr (fun b acc => byteToHex b ++ acc) [])

/-- Python `str.encode("ascii")`: succeeds iff every code point is `≤ 0x7f`;
otherwise `UnicodeEncodeError` is raised, modelled as `none`. -/
def asciiEncode (s : String) : Option (List Nat) :=
  if s.data.all (fun c => c.toNat ≤ 127) then
    some (s.data.map (fun c => c.toNat))
  else
    none

/-- UTF-8 encoding of one unicode scalar value (Python `str.encode()`). -/
def utf8EncodeCp (c : Nat) : List Nat :=
  if c < 0x80 then [c]
  else if c < 0x800 then
    [0xc0 ||| (c >>> 6), 0x80 ||| (c &&& 0x3f)]
  else if c < 0x10000 then
    [0xe0 ||| (c >>> 12), 0x80 ||| ((c >>> 6) &&& 0x3f), 0x80 ||| (c &&& 0x3f)]
  else
    [0xf0 ||| (c >>> 18), 0x80 ||| ((c >>> 12) &&& 0x3f),
     0x80 ||| ((c >>> 6) &&& 0x3f), 0x80 ||| (c &&& 0x3f)]

/-- Python `str.encode()` — UTF-8 bytes of a string. -/
def utf8Encode (s : String) : List Nat :=
  s.data.foldr (fun c acc => utf8EncodeCp c.toNat ++ acc) []

/-! ## SHA-256 (FIPS 180-4), as used by `hashlib.sha256` -/

/-- 32-bit right rotation. -/
def rotr32 (x n : Nat) : Nat :=
  ((x >>> n) ||| (x <<< (32 - n))) % 4294967296

/-- 32-bit addition. -/
def add32 (x y : Nat) : Nat := (x + y) % 4294967296

/-- The 64 SHA-256 round constants. -/
def sha256K : Array Nat := #[
  1116352408, 1899447441, 3049323471, 3921009573, 961987163, 1508970993, 2453635748, 2870763221,
  3624381080, 310598401, 607225278, 1426881987, 1925078388, 2162078206, 2614888103, 3248222580,
  3835390401, 4022224774, 264347078, 604807628, 770255983, 1249150122, 1555081692, 1996064986,
  2554220882, 2821834349, 2952996808, 3210313671, 3336571891, 3584528711, 113926993, 338241895,
  666307205, 773529912, 1294757372, 1396182291, 1695183700, 1986661051, 2177026350, 2456956037,
  2730485921, 2820302411, 3259730800, 3345764771, 3516065817, 3600352804, 4094571909, 275423344,
  430227734, 506948616, 659060556, 883997877, 958139571, 1322822218, 1537002063, 1747873779,
  1955562222, 2024104815, 2227730452, 2361852424, 2428436474, 2756734187, 3204031479, 3329325298]

/-- SHA-256 initial hash value. -/
def sha256H0 : Array Nat :=
  #[1779033703, 3144134277, 1013904242, 2773480762,
    1359893119, 2600822924, 528734635, 1541459225]

/-- A `Nat` as 8 big-endian bytes. -/
def be64 (n : Nat) : List Nat :=
  [(n >>> 56) % 256, (n >>> 48) % 256, (n >>> 40) % 256, (n >>> 32) % 256,
   (n >>> 24) % 256, (n >>> 16) % 256, (n >>> 8) % 256, n % 256]

/-- SHA-256 message padding: `0x80`, zeros to 56 mod 64, 8-byte bit length. -/
def sha256Pad (msg : List Nat) : List Nat :=
  let L := msg.length
  let z := (119 - (L % 64)) % 64
  msg ++ [0x80] ++ List.replicate z 0 ++ be64 (8 * L)

/-- Message schedule: 64 32-bit words from one 64-byte block. -/
def sha256Schedule (block : List Nat) : Array Nat :=
  let w0 : Array Nat := ((List.range 16).map (fun i =>
    (block.getD (4 * i) 0) <<< 24 + (block.getD (4 * i + 1) 0) <<< 16 +
    (block.getD (4 * i + 2) 0) <<< 8 + block.getD (4 * i + 3) 0)).toArray
  (List.range 48).foldl (fun w t =>
    let i := t + 16
    let x15 := w.getD (i - 15) 0
    let x2 := w.getD (i - 2) 0
    let s0 := (rotr32 x15 7) ^^^ (rotr32 x15 18) ^^^ (x15 >>> 3)
    let s1 := (rotr32 x2 17) ^^^ (rotr32 x2 19) ^^^ (x2 >>> 10)
    w.push ((w.getD (i - 16) 0 + s0 + w.getD (i - 7) 0 + s1) % 4294967296)) w0

/-- One SHA-256 compression step over a 64-byte block. -/
def sha256Compress (h : Array Nat) (block : List Nat) : Array Nat :=
  let w := sha256Schedule block
  let st := (List.range 64).foldl (fun (st : Array Nat) t =>
    let a := st.getD 0 0
    let b := st.getD 1 0
    let c := st.getD 2 0
    let d := st.getD 3 0
    let e := st.getD 4 0
    let f := st.getD 5 0
    let g := st.getD 6 0
    let hh := st.getD 7 0
    let S1 := (rotr32 e 6) ^^^ (rotr32 e 11) ^^^ (rotr32 e 25)
    let ch := (e &&& f) ^^^ ((4294967295 - e) &&& g)
    let temp1 := (hh + S1 + ch + sha256K.getD t 0 + w.getD t 0) % 4294967296
    let S0 := (rotr32 a 2) ^^^ (rotr32 a 13) ^^^ (rotr32 a 22)
    let maj := (a &&& b) ^^^ (a &&& c) ^^^ (b &&& c)
    let temp2 := (S0 + maj) % 4294967296
    #[(temp1 + temp2) % 4294967296, a, b, c, (d + temp1) % 4294967296, e, f, g]) h
  (h.zipWith st (fun x y => (x + y) % 4294967296))

/-- SHA-256 digest of a byte list, as 32 bytes. -/
def sha256 (msg : List Nat) : List Nat :=
  let padded := sha256Pad msg
  let n := padded.length / 64
  let hh := (List.range n).foldl
    (fun h i => sha256Compress h ((padded.drop (64 * i)).take 64)) sha256H0
  (hh.toList.map (fun wrd =>
    [(wrd >>> 24) % 256, (wrd >>> 16) % 256, (wrd >>> 8) % 256, wrd % 256])).flatten

/-! ## base64url (Python `base64.urlsafe_b64encode`) -/

/-- The url-safe base64 alphabet. -/
def b64urlAlphabet : List Char :=
  "ABCDEFGHIJKLMNOPQRSTUVWXYZabcdefghijklmnopqrstuvwxyz0123456789-_".data

/-- One base64 character. -/
def b64char (n : Nat) : Char := b64urlAlphabet.getD n 'A'

/-- `base64.urlsafe_b64encode`, with `=` padding. -/
def urlsafeB64encode : List Nat → List Char
  | [] => []
  | [a] =>
      [b64char (a >>> 2), b64char ((a &&& 3) <<< 4), '=', '=']
  | [a, b] =>
      [b64char (a >>> 2), b64char (((a &&& 3) <<< 4) ||| (b >>> 4)),
       b64char ((b &&& 15) <<< 2), '=']
  | a :: b :: c :: rest =>
      b64char (a >>> 2) :: b64char (((a &&& 3) <<< 4) ||| (b >>> 4)) ::
      b64char (((b &&& 15) <<< 2) ||| (c >>> 6)) :: b64char (c &&& 63) ::
      urlsafeB64encode rest

/-- Python `.rstrip(b"=")` on a base64 text. -/
def rstripEq (cs : List Char) : List Char :=
  (cs.reverse.dropWhile (fun c => c = '=')).reverse

/-- Unpadded base64url of a byte list (encode, then strip `=`, as the source
does). -/
def b64urlNoPad (bs : List Nat) : String :=
  String.mk (rstripEq (urlsafeB64encode bs))

/-! ## `security.py` -/

/-- `security.hash_token`: SHA-256 hex digest of the UTF-8 encoded token. -/
def hash_token (token : String) : String :=
  bytesToHex (sha256 (utf8Encode token))

/-- `security.verify_code_challenge`.  Returns `none` when the Python code
raises (the `"ascii"` encode of a non-ASCII verifier in the S256 branch);
`some b` when it returns the boolean `b`. -/
def verify_code_challenge (code_verifier code_challenge method : String) :
    Option Bool :=
  if method = "plain" then
    some (code_verifier == code_challenge)
  else if method = "S256" then
    match asciiEncode code_verifier with
    | some bytes => some (b64urlNoPad (sha256 bytes) == code_challenge)
    | none => none
  else
    some false

/-! ## Configuration (`core/config.py`) -/

/-- Python truthiness of an `Optional[str]`: `None` and `""` are falsy. -/
def optTruthy : Option String → Bool
  | some s => !s.isEmpty
  | none => false

/-- Python `x or default` on an `Optional[str]`. -/
def pyOr (o : Option String) (d : String) : String :=
  match o with
  | some s => if s.isEmpty then d else s
  | none => d

/-- The settings fields the OAuth core reads (`core/config.py`). -/
structure Settings where
  FRONTEND_URL : String
  BACKEND_URL : String
  ACCESS_TOKEN_EXPIRE_MINUTES : Nat
  REFRESH_TOKEN_EXPIRE_DAYS : Nat
  ENVIRONMENT : String
  JWT_PRIVATE_KEY : Option String
  JWT_PUBLIC_KEY : Option String
  JWT_PRIVATE_KEY_PATH : Option String
  JWT_PUBLIC_KEY_PATH : Option String
deriving DecidableEq, Repr

/-- ASCII lower-casing of one character (the fragment of Python `str.lower`
relevant to environment names). -/
def asciiLowerChar (c : Char) : Char :=
  if 'A' ≤ c ∧ c ≤ 'Z' then Char.ofNat (c.toNat + 32) else c

/-- `str.lower()` on ASCII strings. -/
def pyLower (s : String) : String :=
  String.mk (s.data.map asciiLowerChar)

/-- `Settings.is_production`: `ENVIRONMENT.lower() == "production"`. -/
def Settings.is_production (s : Settings) : Bool :=
  pyLower s.ENVIRONMENT == "production"

/-- `Settings.is_development`: `ENVIRONMENT.lower() == "development"`. -/
def Settings.is_development (s : Settings) : Bool :=
  pyLower s.ENVIRONMENT == "development"

/-! ## Persisted records (`app/models`)

Timestamps are modelled as seconds (`Nat`); `datetime.now(timezone.utc)` is
the explicit `now` parameter of each operation.  Storage-layer primary keys
(UUIDs) are modelled as `Nat`.  Columns never read by the embedded endpoints
(surrogate `id` of codes/tokens, `created_at`, client `name`/`description`/
`owner_id`) are omitted. -/

/-- `models/oauth_client.py : OAuthClient`. -/
structure OAuthClient where
  id : Nat
  client_id : String
  client_secret_hash : Option String
  client_type : String
  redirect_uris : List String
  allowed_scopes : List String
  is_active : Bool
deriving DecidableEq, Repr

/-- `OAuthClient.is_public`. -/
def OAuthClient.is_public (c : OAuthClient) : Bool :=
  c.client_type == "public"

/-- `OAuthClient.is_confidential`. -/
def OAuthClient.is_confidential (c : OAuthClient) : Bool :=
  c.client_type == "confidential"

/-- `OAuthClient.validate_redirect_uri`: exact membership in the registered
set. -/
def OAuthClient.validate_redirect_uri (c : OAuthClient) (uri : String) : Bool :=
  c.redirect_uris.contains uri

/-- `OAuthClient.validate_scopes`: every requested scope must be allowed. -/
def OAuthClient.validate_scopes (c : OAuthClient) (scopes : List String) : Bool :=
  scopes.all (fun sc => c.allowed_scopes.contains sc)

/-- `models/oauth_authorization_code.py : OAuthAuthorizationCode`. -/
structure OAuthAuthorizationCode where
  code : String
  client_id : Nat
  user_id : Nat
  redirect_uri : String
  scope : Option String
  nonce : Option String
  code_challenge : Option String
  code_challenge_method : Option String
  expires_at : Nat
  used : Bool
deriving DecidableEq, Repr

/-- `OAuthAuthorizationCode.is_expired`: `datetime.now(utc) > expires_at`. -/
def OAuthAuthorizationCode.is_expired (a : OAuthAuthorizationCode) (now : Nat) : Bool :=
  now > a.expires_at

/-- `OAuthAuthorizationCode.is_valid`: `not used and not is_expired`. -/
def OAuthAuthorizationCode.is_valid (a : OAuthAuthorizationCode) (now : Nat) : Bool :=
  !a.used && !(a.is_expired now)

/-- `OAuthAuthorizationCode.requires_pkce`: `code_challenge is not None`. -/
def OAuthAuthorizationCode.requires_pkce (a : OAuthAuthorizationCode) : Bool :=
  a.code_challenge.isSome

/-- `models/refresh_token.py : RefreshToken`. -/
structure RefreshToken where
  token_hash : String
  user_id : Nat
  client_id : Option Nat
  scope : Option String
  expires_at : Nat
  revoked : Bool
deriving DecidableEq, Repr

/-- `RefreshToken.is_expired`: `datetime.now(utc) > expires_at`. -/
def RefreshToken.is_expired (t : RefreshToken) (now : Nat) : Bool :=
  now > t.expires_at

/-- `RefreshToken.is_valid`: `not revoked and not is_expired`. -/
def RefreshToken.is_valid (t : RefreshToken) (now : Nat) : Bool :=
  !t.revoked && !(t.is_expired now)

/-- The two columns of `models/user.py : User` the OAuth core reads. -/
structure UserRec where
  id : Nat
  is_active : Bool
deriving DecidableEq, Repr

/-- The transactional store: the four tables the OAuth endpoints touch. -/
structure DBState where
  clients : List OAuthClient
  auth_codes : List OAuthAuthorizationCode
  refresh_tokens : List RefreshToken
  users : List UserRec
deriving DecidableEq, Repr

/-- External collaborators that are not part of this repository: passlib's
bcrypt `verify_password`. -/
structure Env where
  verifyPassword : String → String → Bool

/-! ## Store lookups (the `select ... where` queries, `scalar_one_or_none`)

`client_id`, `code` and `token_hash` carry UNIQUE indexes, so `find?` (first
match) agrees with `scalar_one_or_none` on every state the database admits. -/

/-- `select(OAuthClient).where(OAuthClient.client_id == client_id)`. -/
def findClient (s : DBState) (cid : String) : Option OAuthClient :=
  s.clients.find? (fun c => c.client_id == cid)

/-- `select(OAuthAuthorizationCode).where(code == code)`. -/
def findAuthCode (s : DBState) (code : String) : Option OAuthAuthorizationCode :=
  s.auth_codes.find? (fun a => a.code == code)

/-- `select(RefreshToken).where(token_hash == token_hash)`. -/
def findRefreshToken (s : DBState) (h : String) : Option RefreshToken :=
  s.refresh_tokens.find? (fun t => t.token_hash == h)

/-- `user_service.get_by_id` (`services/user_service.py`): plain lookup,
no activity filter. -/
def findUser (s : DBState) (uid : Nat) : Option UserRec :=
  s.users.find? (fun u => u.id == uid)

/-- `auth_code.used = True` on the row with the given (unique) code value. -/
def markCodeUsed (codes : List OAuthAuthorizationCode) (code : String) :
    List OAuthAuthorizationCode :=
  codes.map (fun a => if a.code == code then { a with used := true } else a)

/-- `update(RefreshToken).where(token_hash == h).values(revoked=True)`. -/
def revokeMatching (toks : List RefreshToken) (h : String) : List RefreshToken :=
  toks.map (fun t => if t.token_hash == h then { t with revoked := true } else t)

/-- Python `str.split()` (split on whitespace, dropping empty pieces). -/
def pySplit (s : String) : List String :=
  (s.split (fun c => c.isWhitespace)).filter (fun t => !t.isEmpty)

/-- `scope.split() if scope else ["openid"]`. -/
def scopeList (scope : Option String) : List String :=
  match scope with
  | some sc => if sc.isEmpty then ["openid"] else pySplit sc
  | none => ["openid"]

/-! ## The `/token` endpoint (`endpoints/oauth.py`) -/

/-- The payload handed to `create_access_token` (the minted JWT's `data`;
`exp`/`iat`/`type` are added by the codec and carry no protocol state). -/
structure AccessTokenData where
  sub : Nat
  scope : Option String
  client_id : String
deriving DecidableEq, Repr

/-- The core identity claims of a minted ID token (`sub`, `aud`, `nonce`);
the scope-gated profile/team/role claims come from collaborator services
outside this core. -/
structure IdTokenData where
  sub : Nat
  aud : String
  nonce : Option String
deriving DecidableEq, Repr

/-- `schemas/oauth.py : OAuthTokenResponse`. -/
structure OAuthTokenResponse where
  access_token : AccessTokenData
  token_type : String
  expires_in : Nat
  refresh_token : String
  scope : Option String
  id_token : Option IdTokenData
deriving DecidableEq, Repr

/-- The `HTTPException`s raised by the `/token` endpoint, one constructor per
raise site. -/
inductive TokenError where
  | invalidClient
  | clientSecretRequired
  | invalidClientSecret
  | unsupportedGrantType
  | authorizationCodeRequired
  | invalidAuthorizationCode
  | authCodeExpiredOrUsed
  | clientMismatch
  | redirectUriMismatch
  | codeVerifierRequired
  | invalidCodeVerifier
  | userNotFound
  | refreshTokenRequired
  | invalidRefreshToken
  | userNotFoundOrInactive
deriving DecidableEq, Repr

/-- HTTP status of each raise site. -/
def TokenError.statusCode : TokenError → Nat
  | .invalidClient => 401
  | .clientSecretRequired => 401
  | .invalidClientSecret => 401
  | _ => 400

/-- The `detail` string of each raise site. -/
def TokenError.detail : TokenError → String
  | .invalidClient => "Invalid client"
  | .clientSecretRequired => "Client secret required"
  | .invalidClientSecret => "Invalid client secret"
  | .unsupportedGrantType => "Unsupported grant type"
  | .authorizationCodeRequired => "Authorization code required"
  | .invalidAuthorizationCode => "Invalid authorization code"
  | .authCodeExpiredOrUsed => "Authorization code expired or already used"
  | .clientMismatch => "Client mismatch"
  | .redirectUriMismatch => "Redirect URI mismatch"
  | .codeVerifierRequired => "Code verifier required"
  | .invalidCodeVerifier => "Invalid code verifier"
  | .userNotFound => "User not found"
  | .refreshTokenRequired => "Refresh token required"
  | .invalidRefreshToken => "Invalid refresh token"
  | .userNotFoundOrInactive => "User not found or inactive"

/-- Result of one `/token` request: a token response, an `HTTPException`, or
an uncaught Python exception (`raised` — the S256 verifier encode on
non-ASCII input). -/
inductive TokenOutcome where
  | ok (resp : OAuthTokenResponse)
  | err (e : TokenError)
  | raised
deriving DecidableEq, Repr

/-- Whether an outcome is a 200 token response. -/
def TokenOutcome.isOk : TokenOutcome → Bool
  | .ok _ => true
  | _ => false

/-- The form fields of a `/token` request. -/
structure TokenRequest where
  grant_type : String
  code : Option String
  redirect_uri : Option String
  client_id : String
  client_secret : Option String
  code_verifier : Option String
  refresh_token : Option String
deriving DecidableEq, Repr

/-- The tail of `_handle_authorization_code_grant` after all validation has
passed: `used = True` is committed first, then the user is resolved and the
tokens are minted; the refresh-token row is committed with the second
`db.commit()`.  `now` is the request's clock reading and `freshRefreshRaw`
the random material drawn by `create_refresh_token`. -/
def issueAuthCodeTokens (cfg : Settings) (s : DBState) (client : OAuthClient)
    (auth_code : OAuthAuthorizationCode) (now : Nat) (freshRefreshRaw : String) :
    TokenOutcome × DBState :=
  -- auth_code.used = True; await db.commit()   ← first commit
  let s1 : DBState := { s with auth_codes := markCodeUsed s.auth_codes auth_code.code }
  match findUser s1 auth_code.user_id with
  | none => (.err .userNotFound, s1)   -- raised after the used flag was committed
  | some user =>
    let scopes := scopeList auth_code.scope
    let access : AccessTokenData :=
      { sub := user.id, scope := auth_code.scope, client_id := client.client_id }
    let refresh_record : RefreshToken :=
      { token_hash := hash_token freshRefreshRaw
        user_id := user.id
        client_id := some client.id
        scope := auth_code.scope
        expires_at := now + cfg.REFRESH_TOKEN_EXPIRE_DAYS * 86400
        revoked := false }
    let id_token : Option IdTokenData :=
      if scopes.contains "openid" then
        some { sub := user.id, aud := client.client_id, nonce := auth_code.nonce }
      else none
    -- db.add(refresh_record); await db.commit()   ← second commit
    let s2 : DBState := { s1 with refresh_tokens := s1.refresh_tokens ++ [refresh_record] }
    (.ok { access_token := access
           token_type := "Bearer"
           expires_in := cfg.ACCESS_TOKEN_EXPIRE_MINUTES * 60
           refresh_token := freshRefreshRaw
           scope := auth_code.scope
           id_token := id_token }, s2)

/-- `_handle_authorization_code_grant`. -/
def handleAuthorizationCodeGrant (cfg : Settings) (s : DBState)
    (client : OAuthClient) (code redirect_uri code_verifier : Option String)
    (now : Nat) (freshRefreshRaw : String) : TokenOutcome × DBState :=
  if !(optTruthy code) then (.err .authorizationCodeRequired, s)
  else
    match findAuthCode s (code.getD "") with
    | none => (.err .invalidAuthorizationCode, s)
    | some auth_code =>
      if !(auth_code.is_valid now) then (.err .authCodeExpiredOrUsed, s)
      else if auth_code.client_id ≠ client.id then (.err .clientMismatch, s)
      -- `auth_code.redirect_uri != redirect_uri`: an absent form field never
      -- equals the stored string, so mismatch unless exactly the stored URI
      else if redirect_uri ≠ some auth_code.redirect_uri then (.err .redirectUriMismatch, s)
      else if auth_code.requires_pkce then
        if !(optTruthy code_verifier) then (.err .codeVerifierRequired, s)
        else
          -- a NULL stored method compares unequal to both "plain" and "S256",
          -- so verify_code_challenge returns False for it
          let vres : Option Bool :=
            match auth_code.code_challenge_method with
            | some m => verify_code_challenge (code_verifier.getD "") (auth_code.code_challenge.getD "") m
            | none => some false
          match vres with
          | none => (.raised, s)
          | some false => (.err .invalidCodeVerifier, s)
          | some true => issueAuthCodeTokens cfg s client auth_code now freshRefreshRaw
      else issueAuthCodeTokens cfg s client auth_code now freshRefreshRaw

/-- `_handle_refresh_token_grant`.  All mutations (revoking the presented
token, inserting its successor) are committed by the single final
`db.commit()`. -/
def handleRefreshTokenGrant (cfg : Settings) (s : DBState) (client : OAuthClient)
    (refresh_token_str : Option String) (now : Nat) (freshRefreshRaw : String) :
    TokenOutcome × DBState :=
  if !(optTruthy refresh_token_str) then (.err .refreshTokenRequired, s)
  else
    let th := hash_token (refresh_token_str.getD "")
    match findRefreshToken s th with
    | none => (.err .invalidRefreshToken, s)
    | some token_record =>
      if !(token_record.is_valid now) then (.err .invalidRefreshToken, s)
      else if token_record.client_id ≠ some client.id then (.err .clientMismatch, s)
      else
        match findUser s token_record.user_id with
        | none => (.err .userNotFoundOrInactive, s)
        | some user =>
          if !user.is_active then (.err .userNotFoundOrInactive, s)
          else
            let access : AccessTokenData :=
              { sub := user.id, scope := token_record.scope, client_id := client.client_id }
            let new_refresh : RefreshToken :=
              { token_hash := hash_token freshRefreshRaw
                user_id := user.id
                client_id := some client.id
                scope := token_record.scope
                expires_at := now + cfg.REFRESH_TOKEN_EXPIRE_DAYS * 86400
                revoked := false }
            let s1 : DBState :=
              { s with refresh_tokens :=
                  revokeMatching s.refresh_tokens th ++ [new_refresh] }
            (.ok { access_token := access
                   token_type := "Bearer"
                   expires_in := cfg.ACCESS_TOKEN_EXPIRE_MINUTES * 60
                   refresh_token := freshRefreshRaw
                   scope := token_record.scope
                   id_token := none }, s1)

/-- The `/token` endpoint: client resolution, client authentication, grant
dispatch.  A confidential client always carries a secret hash (it is set at
creation and rotation); verifying against a hypothetical missing hash is
modelled as verifying against `""`. -/
def tokenEndpoint (env : Env) (cfg : Settings) (s : DBState) (req : TokenRequest)
    (now : Nat) (freshRefreshRaw : String) : TokenOutcome × DBState :=
  match findClient s req.client_id with
  | none => (.err .invalidClient, s)
  | some client =>
    if !client.is_active then (.err .invalidClient, s)
    else if client.is_confidential && !(optTruthy req.client_secret) then
      (.err .clientSecretRequired, s)
    else if client.is_confidential &&
        !(env.verifyPassword (req.client_secret.getD "") (client.client_secret_hash.getD "")) then
      (.err .invalidClientSecret, s)
    else if req.grant_type = "authorization_code" then
      handleAuthorizationCodeGrant cfg s client req.code req.redirect_uri req.code_verifier now freshRefreshRaw
    else if req.grant_type = "refresh_token" then
      handleRefreshTokenGrant cfg s client req.refresh_token now freshRefreshRaw
    else (.err .unsupportedGrantType, s)

/-! ## The `/revoke` endpoint -/

/-- The body of the `/revoke` 200 response. -/
structure RevokeResponse where
  message : String
deriving DecidableEq, Repr

/-- `revoke_token`: a blind `UPDATE ... WHERE token_hash = hash(token)` and an
unconditional 200.  The endpoint's only form fields are `token` and the
unused `token_type_hint`; it has no client-credential parameters and no
dependency on the caller's identity. -/
def revokeEndpoint (s : DBState) (token : String) : RevokeResponse × DBState :=
  let th := hash_token token
  ({ message := "Token revoked" },
   { s with refresh_tokens := revokeMatching s.refresh_tokens th })

/-! ## The `/authorize` endpoint -/

/-- The query parameters of an `/authorize` request. -/
structure AuthorizeRequest where
  response_type : String
  client_id : String
  redirect_uri : String
  scope : Option String
  state : Option String
  nonce : Option String
  code_challenge : Option String
  code_challenge_method : Option String
deriving DecidableEq, Repr

/-- Every control path of the Python `authorize` endpoint returns a
`RedirectResponse`; the outcome type records the `Location` URL.  (There is
deliberately no direct-error constructor: the source has no such path.) -/
inductive AuthorizeOutcome where
  | redirect (url : String)
deriving DecidableEq, Repr

/-- `{state or ''}` in the error-redirect f-strings. -/
def stateParam (st : Option String) : String := pyOr st ""

/-- The `authorize` endpoint.  `current_user` is the authenticated session
(if any), `requestUrl` the full request URL used in the login redirect,
`freshCode` the random material drawn by `generate_secure_token(32)`. -/
def authorizeEndpoint (cfg : Settings) (s : DBState) (req : AuthorizeRequest)
    (current_user : Option Nat) (requestUrl : String) (freshCode : String)
    (now : Nat) : AuthorizeOutcome × DBState :=
  if req.response_type ≠ "code" then
    (.redirect (req.redirect_uri ++ "?error=unsupported_response_type&state=" ++ stateParam req.state), s)
  else
    match findClient s req.client_id with
    | none =>
      (.redirect (req.redirect_uri ++ "?error=invalid_client&state=" ++ stateParam req.state), s)
    | some client =>
      if !client.is_active then
        (.redirect (req.redirect_uri ++ "?error=invalid_client&state=" ++ stateParam req.state), s)
      else if !(client.validate_redirect_uri req.redirect_uri) then
        (.redirect (req.redirect_uri ++ "?error=invalid_redirect_uri&state=" ++ stateParam req.state), s)
      else if !(client.validate_scopes (scopeList req.scope)) then
        (.redirect (req.redirect_uri ++ "?error=invalid_scope&state=" ++ stateParam req.state), s)
      else if client.is_public && !(optTruthy req.code_challenge) then
        (.redirect (req.redirect_uri ++ "?error=invalid_request&error_description=PKCE+required&state=" ++ stateParam req.state), s)
      else
        match current_user with
        | none => (.redirect (cfg.FRONTEND_URL ++ "/login?return_to=" ++ requestUrl), s)
        | some uid =>
          let auth_code : OAuthAuthorizationCode :=
            { code := freshCode
              client_id := client.id
              user_id := uid
              redirect_uri := req.redirect_uri
              scope := req.scope
              nonce := req.nonce
              code_challenge := req.code_challenge
              code_challenge_method := some (pyOr req.code_challenge_method "S256")
              expires_at := now + 600   -- timedelta(minutes=10)
              used := false }
          let s1 : DBState := { s with auth_codes := s.auth_codes ++ [auth_code] }
          let url0 := req.redirect_uri ++ "?code=" ++ freshCode
          let url := if optTruthy req.state then url0 ++ "&state=" ++ (req.state.getD "") else url0
          (.redirect url, s1)

/-! ## Signing-key resolution (`security._load_or_generate_keys`) -/

/-- The file-path step of `_load_or_generate_keys`: both path settings set
(truthy) and both files present (`fileContents p = some text` models
`Path(p).exists()` plus `read_text()`). -/
def keysFromFiles (cfg : Settings) (fileContents : String → Option String) :
    Option (String × String) :=
  if optTruthy cfg.JWT_PRIVATE_KEY_PATH && optTruthy cfg.JWT_PUBLIC_KEY_PATH then
    match fileContents (cfg.JWT_PRIVATE_KEY_PATH.getD ""),
          fileContents (cfg.JWT_PUBLIC_KEY_PATH.getD "") with
    | some pr, some pu => some (pr, pu)
    | _, _ => none
  else none

/-- `_load_or_generate_keys`.  `generated` is the RSA pair the
`is_development` branch would mint; `cachePriv`/`cachePub` are the module
globals `_private_key`/`_public_key`.  Returns the key pair and the updated
cache, or the `ValueError` message. -/
def load_or_generate_keys (cfg : Settings) (fileContents : String → Option String)
    (generated : String × String) (cachePriv cachePub : Option String) :
    Except String ((String × String) × (Option String × Option String)) :=
  if optTruthy cachePriv && optTruthy cachePub then
    .ok ((cachePriv.getD "", cachePub.getD ""), (cachePriv, cachePub))
  else if optTruthy cfg.JWT_PRIVATE_KEY && optTruthy cfg.JWT_PUBLIC_KEY then
    .ok ((cfg.JWT_PRIVATE_KEY.getD "", cfg.JWT_PUBLIC_KEY.getD ""),
         (cfg.JWT_PRIVATE_KEY, cfg.JWT_PUBLIC_KEY))
  else
    match keysFromFiles cfg fileContents with
    | some (pr, pu) => .ok ((pr, pu), (some pr, some pu))
    | none =>
      if cfg.is_development then
        .ok (generated, (some generated.1, some generated.2))
      else
        .error ("JWT keys not configured. Set JWT_PRIVATE_KEY and JWT_PUBLIC_KEY " ++
                "or JWT_PRIVATE_KEY_PATH and JWT_PUBLIC_KEY_PATH in environment.")

/-! ## Request sequences -/

/-- One state-mutating request against the OAuth surface. -/
inductive Op where
  | tokenOp (req : TokenRequest) (now : Nat) (fresh : String)
  | revokeOp (tokenVal : String)
  | authorizeOp (req : AuthorizeRequest) (current_user : Option Nat)
      (requestUrl : String) (freshCode : String) (now : Nat)

/-- The committed store after one request. -/
def stepOp (env : Env) (cfg : Settings) (s : DBState) : Op → DBState
  | .tokenOp req now fresh => (tokenEndpoint env cfg s req now fresh).2
  | .revokeOp v => (revokeEndpoint s v).2
  | .authorizeOp req cu url fc now => (authorizeEndpoint cfg s req cu url fc now).2

/-- The committed store after a sequence of requests. -/
def applyOps (env : Env) (cfg : Settings) (s : DBState) (ops : List Op) : DBState :=
  ops.foldl (fun st op => stepOp env cfg st op) s

/-- The stored row for this code value exists and is already redeemed. -/
def codeUsedIn (s : DBState) (cs : String) : Prop :=
  ∃ a, findAuthCode s cs = some a ∧ a.used = true

/-- The only shapes the code table can take after one request: untouched,
one code marked used, or one fresh code appended. -/
def codesPreserved (s : DBState) (l : List OAuthAuthorizationCode) : Prop :=
  l = s.auth_codes ∨ (∃ cs, l = markCodeUsed s.auth_codes cs) ∨
    ∃ ac, l = s.auth_codes ++ [ac]

/-! ## Concrete fixtures used by the claim theorems -/

/-- C8 witness state: one stored token whose hash cannot match. -/
def frameState : DBState :=
  { clients := []
    auth_codes := []
    refresh_tokens := [{ token_hash := "stored-hash", user_id := 1,
                         client_id := some 1, scope := none,
                         expires_at := 100, revoked := false }]
    users := [] }

/-- C9 witness token: owned by user 7 / client 42. -/
def ownedTok : RefreshToken :=
  { token_hash := hash_token "tok9", user_id := 7, client_id := some 42,
    scope := some "openid", expires_at := 99, revoked := false }

/-- C9 witness state. -/
def ownedState : DBState :=
  { clients := [], auth_codes := [], refresh_tokens := [ownedTok], users := [] }

/-- C6 witness settings: production with no key material at all. -/
def prodSettings : Settings :=
  { FRONTEND_URL := "https://portal.example", BACKEND_URL := "https://sso.example"
    ACCESS_TOKEN_EXPIRE_MINUTES := 15, REFRESH_TOKEN_EXPIRE_DAYS := 7
    ENVIRONMENT := "production"
    JWT_PRIVATE_KEY := none, JWT_PUBLIC_KEY := none
    JWT_PRIVATE_KEY_PATH := none, JWT_PUBLIC_KEY_PATH := none }

/-- C6 witness settings: development with no key material. -/
def devSettings : Settings :=
  { prodSettings with ENVIRONMENT := "development" }

/-- Settings used by the endpoint fixtures. -/
def testSettings : Settings :=
  { devSettings with FRONTEND_URL := "http://localhost:3000" }

/-- A password-verify oracle for fixtures (plain comparison; bcrypt itself is
external to this repository). -/
def idEnv : Env := ⟨fun pw h => pw == h⟩

/-- A public, active client registered for two exact redirect URIs. -/
def pkClient : OAuthClient :=
  { id := 1, client_id := "app1", client_secret_hash := none
    client_type := "public"
    redirect_uris := ["https://a/cb", "https://b/cb"]
    allowed_scopes := ["openid"], is_active := true }

/-- C7 witness code: stored for `https://a/cb`. -/
def storedCode : OAuthAuthorizationCode :=
  { code := "c7", client_id := 1, user_id := 7
    redirect_uri := "https://a/cb", scope := none, nonce := none
    code_challenge := none, code_challenge_method := some "S256"
    expires_at := 1000, used := false }

/-- C7 witness state. -/
def mismatchState : DBState :=
  { clients := [pkClient], auth_codes := [storedCode]
    refresh_tokens := [], users := [{ id := 7, is_active := true }] }

/-- C7 witness request: supplies the client's *other* registered URI. -/
def mismatchReq : TokenRequest :=
  { grant_type := "authorization_code", code := some "c7"
    redirect_uri := some "https://b/cb", client_id := "app1"
    client_secret := none, code_verifier := none, refresh_token := none }

/-- C2 witness code: a valid, unused code whose user no longer exists. -/
def orphanCode : OAuthAuthorizationCode :=
  { code := "c2", client_id := 1, user_id := 9
    redirect_uri := "https://a/cb", scope := none, nonce := none
    code_challenge := none, code_challenge_method := some "S256"
    expires_at := 1000, used := false }

/-- C2 failing state: the code's user (9) is absent from the user table. -/
def orphanState : DBState :=
  { clients := [pkClient], auth_codes := [orphanCode]
    refresh_tokens := [], users := [] }

/-- C2 failing request. -/
def orphanReq : TokenRequest :=
  { grant_type := "authorization_code", code := some "c2"
    redirect_uri := some "https://a/cb", client_id := "app1"
    client_secret := none, code_verifier := none, refresh_token := none }

/-- C1 witness code: valid, unused, bound to user 7 and client 1. -/
def okCode : OAuthAuthorizationCode :=
  { code := "c1", client_id := 1, user_id := 7
    redirect_uri := "https://a/cb", scope := none, nonce := none
    code_challenge := none, code_challenge_method := some "S256"
    expires_at := 1000, used := false }

/-- C1 witness state. -/
def okState : DBState :=
  { clients := [pkClient], auth_codes := [okCode]
    refresh_tokens := [], users := [{ id := 7, is_active := true }] }

/-- C1 witness request. -/
def okReq : TokenRequest :=
  { grant_type := "authorization_code", code := some "c1"
    redirect_uri := some "https://a/cb", client_id := "app1"
    client_secret := none, code_verifier := none, refresh_token := none }

/-- C4 witness token: stored under the hash of `oldraw`. -/
def rotTok : RefreshToken :=
  { token_hash := hash_token "oldraw", user_id := 7, client_id := some 1
    scope := some "openid", expires_at := 1000, revoked := false }

/-- C4 witness state. -/
def rotState : DBState :=
  { clients := [pkClient], auth_codes := [], refresh_tokens := [rotTok]
    users := [{ id := 7, is_active := true }] }

/-- C4 witness request. -/
def rotReq : TokenRequest :=
  { grant_type := "refresh_token", code := none, redirect_uri := none
    client_id := "app1", client_secret := none, code_verifier := none
    refresh_token := some "oldraw" }

/-! ## Helper lemmas -/

/-- `find?` commutes with a map that does not disturb the search key. -/
theorem find?_map_of_pres {α : Type} (p : α → Bool) (g : α → α)
    (hp : ∀ a, p (g a) = p a) (l : List α) :
    (l.map g).find? p = (l.find? p).map g := by
  rw [List.find?_map]
  have hcomp : (p ∘ g) = p := funext hp
  rw [hcomp]

/-- Marking a code used does not change any row's `code` key. -/
theorem markCodeUsed_find? (l : List OAuthAuthorizationCode) (cs target : String) :
    (markCodeUsed l cs).find? (fun a => a.code == target) =
      (l.find? (fun a => a.code == target)).map
        (fun a => if a.code == cs then { a with used := true } else a) := by
  apply find?_map_of_pres
  intro a
  by_cases h : a.code == cs <;> simp [h]

/-- Revoking matching rows does not change any row's `token_hash` key. -/
theorem revokeMatching_find? (l : List RefreshToken) (h target : String) :
    (revokeMatching l h).find? (fun t => t.token_hash == target) =
      (l.find? (fun t => t.token_hash == target)).map
        (fun t => if t.token_hash == h then { t with revoked := true } else t) := by
  apply find?_map_of_pres
  intro t
  by_cases hm : t.token_hash == h <;> simp [hm]

/-- A blind revoke that matches nothing is the identity on the store. -/
theorem revokeMatching_eq_self (l : List RefreshToken) (h : String)
    (hnone : ∀ t ∈ l, t.token_hash ≠ h) : revokeMatching l h = l := by
  induction l with
  | nil => rfl
  | cons x xs ih =>
    have hx : (x.token_hash == h) = false := by
      simpa using hnone x (List.mem_cons_self x xs)
    simp only [revokeMatching, List.map_cons, hx, Bool.false_eq_true, if_false]
    have hxs := ih (fun t ht => hnone t (List.mem_cons_of_mem x ht))
    simp only [revokeMatching] at hxs
    rw [hxs]

end SSO

namespace SSO

set_option maxRecDepth 10000

/-! ## Claims -/

/-- C5: `verify_code_challenge` is exact string equality for `"plain"`;
for `"S256"` it returns true exactly when the unpadded base64url encoding of
the SHA-256 of the (ASCII-encoded) verifier equals the challenge; every
other method fails closed with `false`. -/
theorem verify_code_challenge_spec (v c m : String) :
    verify_code_challenge v c "plain" = some (v == c) ∧
    ((verify_code_challenge v c "S256" = some true) ↔
      ∃ bs, asciiEncode v = some bs ∧ b64urlNoPad (sha256 bs) = c) ∧
    (m ≠ "plain" → m ≠ "S256" → verify_code_challenge v c m = some false) := by
  refine ⟨by simp [verify_code_challenge], ?_, ?_⟩
  · unfold verify_code_challenge
    rw [if_neg (by decide : ¬("S256" : String) = "plain"), if_pos rfl]
    cases h : asciiEncode v with
    | none => simp
    | some bs =>
      constructor
      · intro hsome
        have hb := Option.some.inj hsome
        exact ⟨bs, rfl, by simpa using hb⟩
      · rintro ⟨bs', hbs', heq⟩
        cases Option.some.inj hbs'
        simp [heq]
  · intro h1 h2
    unfold verify_code_challenge
    rw [if_neg h1, if_neg h2]

/-- C5 witness: concrete inputs for each hypothesis-bearing conjunct. -/
theorem verify_code_challenge_spec_witness :
    verify_code_challenge "verifier" "challenge" "plain" = some ("verifier" == "challenge") ∧
    verify_code_challenge "verifier" "challenge" "other" = some false := by
  have h := verify_code_challenge_spec "verifier" "challenge" "other"
  exact ⟨h.1, h.2.2 (by decide) (by decide)⟩

/-- C10: in the S256 branch, a verifier containing any non-ASCII character
makes the `"ascii"` encode raise (`none`) instead of returning a boolean,
while an all-ASCII verifier always yields a boolean for every method. -/
theorem verify_code_challenge_nonascii_raises (v c : String) :
    ((∃ ch ∈ v.data, 127 < ch.toNat) → verify_code_challenge v c "S256" = none) ∧
    ((∀ ch ∈ v.data, ch.toNat ≤ 127) → ∀ m, ∃ b, verify_code_challenge v c m = some b) := by
  constructor
  · rintro ⟨ch, hmem, hgt⟩
    have henc : asciiEncode v = none := by
      unfold asciiEncode
      rw [if_neg]
      intro hall
      rw [List.all_eq_true] at hall
      have := hall ch hmem
      simp at this
      omega
    unfold verify_code_challenge
    rw [if_neg (by decide : ¬("S256" : String) = "plain"), if_pos rfl, henc]
  · intro hall m
    by_cases h1 : m = "plain"
    · subst h1
      exact ⟨v == c, by simp [verify_code_challenge]⟩
    · by_cases h2 : m = "S256"
      · subst h2
        have henc : asciiEncode v = some (v.data.map (fun ch => ch.toNat)) := by
          unfold asciiEncode
          rw [if_pos]
          rw [List.all_eq_true]
          intro ch hch
          simpa using hall ch hch
        refine ⟨b64urlNoPad (sha256 (v.data.map (fun ch => ch.toNat))) == c, ?_⟩
        unfold verify_code_challenge
        rw [if_neg (by decide : ¬("S256" : String) = "plain"), if_pos rfl, henc]
      · exact ⟨false, by unfold verify_code_challenge; rw [if_neg h1, if_neg h2]⟩

/-- C10 witness: a non-ASCII verifier raises; an ASCII one returns. -/
theorem verify_code_challenge_nonascii_raises_witness :
    verify_code_challenge "é" "x" "S256" = none ∧
    ∃ b, verify_code_challenge "ok" "x" "S256" = some b :=
  ⟨(verify_code_challenge_nonascii_raises "é" "x").1 ⟨'é', by decide, by decide⟩,
   (verify_code_challenge_nonascii_raises "ok" "x").2 (by decide) "S256"⟩

/-- C8: revoking always answers 200 `Token revoked`; an unknown token leaves
the whole store untouched; and in every case the only change to any stored
token is the `revoked` flag of the rows whose hash matches. -/
theorem revoke_unknown_token_frame (s : DBState) (v : String) :
    (revokeEndpoint s v).1 = { message := "Token revoked" } ∧
    ((∀ t ∈ s.refresh_tokens, t.token_hash ≠ hash_token v) → (revokeEndpoint s v).2 = s) ∧
    (revokeEndpoint s v).2.clients = s.clients ∧
    (revokeEndpoint s v).2.auth_codes = s.auth_codes ∧
    (revokeEndpoint s v).2.users = s.users ∧
    (revokeEndpoint s v).2.refresh_tokens.length = s.refresh_tokens.length ∧
    (∀ (i : Nat) (h : i < s.refresh_tokens.length),
      (revokeEndpoint s v).2.refresh_tokens[i]? =
        some (if (s.refresh_tokens[i]).token_hash = hash_token v
          then { s.refresh_tokens[i] with revoked := true }
          else s.refresh_tokens[i])) := by
  refine ⟨rfl, ?_, rfl, rfl, rfl, ?_, ?_⟩
  · intro hnone
    show ({ s with refresh_tokens := revokeMatching s.refresh_tokens (hash_token v) } : DBState) = s
    rw [revokeMatching_eq_self s.refresh_tokens (hash_token v) hnone]
  · show (revokeMatching s.refresh_tokens (hash_token v)).length = s.refresh_tokens.length
    simp [revokeMatching]
  · intro i h
    show (revokeMatching s.refresh_tokens (hash_token v))[i]? = _
    rw [revokeMatching, List.getElem?_map, List.getElem?_eq_getElem h]
    by_cases hm : (s.refresh_tokens[i]).token_hash = hash_token v <;>
      simp [hm]

/-- C8 witness: revoking an unknown value returns 200 and changes nothing. -/
theorem revoke_unknown_token_frame_witness :
    (revokeEndpoint frameState "unknown").1 = { message := "Token revoked" } ∧
    (revokeEndpoint frameState "unknown").2 = frameState := by
  have hdig : hash_token "unknown" =
      "b23a6a8439c0dde5515893e7c90c1e3233b8616e634470f20dc4928bcf3609bc" := by decide
  exact ⟨(revoke_unknown_token_frame frameState "unknown").1,
    (revoke_unknown_token_frame frameState "unknown").2.1
      (by simp only [hdig, frameState]; decide)⟩

/-- C9: `/revoke` takes no client credentials (its only inputs are the store
and the raw token value) and performs no ownership check: any stored token
whose hash matches the presented value is revoked, whatever its
`client_id`/`user_id`. -/
theorem revoke_no_ownership_check (s : DBState) (v : String) (t : RefreshToken)
    (hmem : t ∈ s.refresh_tokens) (hhash : t.token_hash = hash_token v) :
    { t with revoked := true } ∈ (revokeEndpoint s v).2.refresh_tokens ∧
    (revokeEndpoint s v).1 = { message := "Token revoked" } := by
  refine ⟨?_, rfl⟩
  show _ ∈ revokeMatching s.refresh_tokens (hash_token v)
  have hmap := List.mem_map_of_mem
    (fun x => if x.token_hash == hash_token v then { x with revoked := true } else x) hmem
  simpa [revokeMatching, hhash] using hmap

/-- C9 witness: the bare token value revokes the stored token. -/
theorem revoke_no_ownership_check_witness :
    { ownedTok with revoked := true } ∈ (revokeEndpoint ownedState "tok9").2.refresh_tokens ∧
    (revokeEndpoint ownedState "tok9").1 = { message := "Token revoked" } :=
  revoke_no_ownership_check ownedState "tok9" ownedTok (List.Mem.head _) rfl

/-- C6: resolution order is cache, then explicit config strings, then key
files, then ephemeral generation — the latter only when
`ENVIRONMENT=development`; outside development, missing material is the
fatal `ValueError`, never a generated key.  In particular production (which
is never development) fails rather than generating. -/
theorem key_resolution_order (cfg : Settings) (fc : String → Option String)
    (gen : String × String) (k1 k2 : String) :
    (cfg.JWT_PRIVATE_KEY = some k1 → k1 ≠ "" →
      cfg.JWT_PUBLIC_KEY = some k2 → k2 ≠ "" →
      load_or_generate_keys cfg fc gen none none = .ok ((k1, k2), (some k1, some k2))) ∧
    ((optTruthy cfg.JWT_PRIVATE_KEY && optTruthy cfg.JWT_PUBLIC_KEY) = false →
      keysFromFiles cfg fc = some (k1, k2) →
      load_or_generate_keys cfg fc gen none none = .ok ((k1, k2), (some k1, some k2))) ∧
    ((optTruthy cfg.JWT_PRIVATE_KEY && optTruthy cfg.JWT_PUBLIC_KEY) = false →
      keysFromFiles cfg fc = none → cfg.is_development = true →
      load_or_generate_keys cfg fc gen none none = .ok (gen, (some gen.1, some gen.2))) ∧
    ((optTruthy cfg.JWT_PRIVATE_KEY && optTruthy cfg.JWT_PUBLIC_KEY) = false →
      keysFromFiles cfg fc = none → cfg.is_development = false →
      ∃ msg, load_or_generate_keys cfg fc gen none none = .error msg) ∧
    (cfg.is_production = true → cfg.is_development = false) := by
  have hcache : (optTruthy (none : Option String) && optTruthy (none : Option String)) = false := rfl
  refine ⟨?_, ?_, ?_, ?_, ?_⟩
  · intro hpk hk1 hpub hk2
    have h1 : optTruthy cfg.JWT_PRIVATE_KEY = true := by
      rw [hpk]; simpa [optTruthy] using fun h => hk1 ((String.isEmpty_iff k1).mp h)
    have h2 : optTruthy cfg.JWT_PUBLIC_KEY = true := by
      rw [hpub]; simpa [optTruthy] using fun h => hk2 ((String.isEmpty_iff k2).mp h)
    unfold load_or_generate_keys
    rw [if_neg (by simp [optTruthy]), if_pos (by simp [h1, h2]), hpk, hpub]
    rfl
  · intro hstr hfile
    unfold load_or_generate_keys
    rw [if_neg (by simp [optTruthy]), if_neg (by simp [hstr]), hfile]
  · intro hstr hfile hdev
    unfold load_or_generate_keys
    rw [if_neg (by simp [optTruthy]), if_neg (by simp [hstr]), hfile]
    simp [hdev]
  · intro hstr hfile hdev
    refine ⟨("JWT keys not configured. Set JWT_PRIVATE_KEY and JWT_PUBLIC_KEY " ++
        "or JWT_PRIVATE_KEY_PATH and JWT_PUBLIC_KEY_PATH in environment."), ?_⟩
    unfold load_or_generate_keys
    rw [if_neg (by simp [optTruthy]), if_neg (by simp [hstr]), hfile]
    simp [hdev]
  · intro hprod
    have henv : pyLower cfg.ENVIRONMENT = "production" := by
      simpa [Settings.is_production] using hprod
    simp [Settings.is_development, henv]

/-- C6 witness: production fails fatally; development generates. -/
theorem key_resolution_order_witness :
    (∃ msg, load_or_generate_keys prodSettings (fun _ => none) ("genpriv", "genpub") none none
      = .error msg) ∧
    load_or_generate_keys devSettings (fun _ => none) ("genpriv", "genpub") none none
      = .ok (("genpriv", "genpub"), (some "genpriv", some "genpub")) := by
  refine ⟨(key_resolution_order prodSettings (fun _ => none) ("genpriv", "genpub") "" "").2.2.2.1
      rfl rfl (by decide), ?_⟩
  have h := (key_resolution_order devSettings (fun _ => none) ("genpriv", "genpub") "" "").2.2.1
      rfl rfl (by decide)
  exact h

/-- C7: at `/token`, a code stored for redirect URI `A` is rejected with
`Redirect URI mismatch` whenever the exchange supplies any `B ≠ A` —
the comparison is verbatim string equality against the stored value, so even
another registered URI of the same client is rejected — and the store is
left unchanged. -/
theorem redirect_uri_must_match_stored
    (env : Env) (cfg : Settings) (s : DBState) (req : TokenRequest)
    (now : Nat) (fresh : String) (client : OAuthClient)
    (a : OAuthAuthorizationCode) (cs ruB : String)
    (hclient : findClient s req.client_id = some client)
    (hactive : client.is_active = true)
    (hsec1 : (client.is_confidential && !(optTruthy req.client_secret)) = false)
    (hsec2 : (client.is_confidential &&
      !(env.verifyPassword (req.client_secret.getD "") (client.client_secret_hash.getD ""))) = false)
    (hgrant : req.grant_type = "authorization_code")
    (hcode : req.code = some cs) (hcs : cs ≠ "")
    (hfind : findAuthCode s cs = some a)
    (hvalid : a.is_valid now = true)
    (hcl : a.client_id = client.id)
    (hru : req.redirect_uri = some ruB)
    (hne : ruB ≠ a.redirect_uri) :
    tokenEndpoint env cfg s req now fresh = (.err .redirectUriMismatch, s) := by
  have htr : optTruthy (some cs) = true := by
    simpa [optTruthy] using fun h => hcs ((String.isEmpty_iff cs).mp h)
  unfold tokenEndpoint
  rw [hclient]
  simp only [hactive, Bool.not_true, if_neg, hsec1, hsec2, hgrant, if_pos]
  unfold handleAuthorizationCodeGrant
  rw [hcode]
  simp only [htr, Bool.not_true, Bool.false_eq_true, if_false, Option.getD_some]
  rw [hfind]
  simp only [hvalid, Bool.not_true, Bool.false_eq_true, if_false]
  rw [if_neg (by simp [hcl]), if_pos (by simp [hru, hne])]

/-- C7 witness: the other registered URI is still rejected. -/
theorem redirect_uri_must_match_stored_witness :
    tokenEndpoint idEnv testSettings mismatchState mismatchReq 0 "fresh"
      = (.err .redirectUriMismatch, mismatchState) :=
  redirect_uri_must_match_stored idEnv testSettings mismatchState mismatchReq 0 "fresh"
    pkClient storedCode "c7" "https://b/cb"
    rfl rfl rfl rfl rfl rfl (by decide) rfl rfl rfl rfl (by decide)

/-- C3 (refuting the claim, which matches the spec): when the client cannot
be resolved, and likewise when the supplied `redirect_uri` is not registered
for the client, the `authorize` endpoint does NOT return a direct error —
it issues a redirect to the attacker-supplied `redirect_uri` carrying the
error code. -/
theorem authorize_redirects_unvalidated_errors :
    authorizeEndpoint testSettings
      { clients := [pkClient], auth_codes := [], refresh_tokens := [], users := [] }
      { response_type := "code", client_id := "ghost"
        redirect_uri := "https://attacker.example/cb", scope := none
        state := some "xyz", nonce := none, code_challenge := none
        code_challenge_method := none } none "requrl" "freshcode" 0
      = (.redirect "https://attacker.example/cb?error=invalid_client&state=xyz",
         { clients := [pkClient], auth_codes := [], refresh_tokens := [], users := [] }) ∧
    authorizeEndpoint testSettings
      { clients := [pkClient], auth_codes := [], refresh_tokens := [], users := [] }
      { response_type := "code", client_id := "app1"
        redirect_uri := "https://attacker.example/cb", scope := none
        state := some "xyz", nonce := none, code_challenge := none
        code_challenge_method := none } none "requrl" "freshcode" 0
      = (.redirect "https://attacker.example/cb?error=invalid_redirect_uri&state=xyz",
         { clients := [pkClient], auth_codes := [], refresh_tokens := [], users := [] }) := by
  exact ⟨by decide, by decide⟩

/-- After a rotation, the presented hash resolves to the revoked old row. -/
theorem findRefreshToken_after_rotation (l : List RefreshToken) (h : String)
    (tr new : RefreshToken)
    (hfind : l.find? (fun t => t.token_hash == h) = some tr) :
    (revokeMatching l h ++ [new]).find? (fun t => t.token_hash == h)
      = some { tr with revoked := true } := by
  rw [List.find?_append, revokeMatching_find?, hfind]
  have hh : (tr.token_hash == h) = true := by simpa using List.find?_some hfind
  simp [hh, Option.or]
  intro hne
  exact absurd (by simpa using hh) hne

/-- C4: a valid refresh exchange revokes the presented token, appends exactly
one successor carrying the same scope, user and client, and returns the new
raw token; the presented hash thereafter resolves to the revoked row, so an
immediate replay of the old token fails with 400 `Invalid refresh token`. -/
theorem refresh_rotation_revokes_and_mints
    (env : Env) (cfg : Settings) (s : DBState) (req : TokenRequest)
    (now : Nat) (fresh : String) (client : OAuthClient) (tr : RefreshToken)
    (raw : String) (user : UserRec)
    (hclient : findClient s req.client_id = some client)
    (hactive : client.is_active = true)
    (hsec1 : (client.is_confidential && !(optTruthy req.client_secret)) = false)
    (hsec2 : (client.is_confidential &&
      !(env.verifyPassword (req.client_secret.getD "") (client.client_secret_hash.getD ""))) = false)
    (hgrant : req.grant_type = "refresh_token")
    (hrt : req.refresh_token = some raw) (hraw : raw ≠ "")
    (hfind : findRefreshToken s (hash_token raw) = some tr)
    (hvalid : tr.is_valid now = true)
    (hcl : tr.client_id = some client.id)
    (huser : findUser s tr.user_id = some user)
    (huact : user.is_active = true) :
    tokenEndpoint env cfg s req now fresh =
      (.ok { access_token := { sub := user.id, scope := tr.scope, client_id := client.client_id }
             token_type := "Bearer"
             expires_in := cfg.ACCESS_TOKEN_EXPIRE_MINUTES * 60
             refresh_token := fresh
             scope := tr.scope
             id_token := none },
       { s with refresh_tokens :=
           revokeMatching s.refresh_tokens (hash_token raw) ++
             [{ token_hash := hash_token fresh
                user_id := user.id
                client_id := some client.id
                scope := tr.scope
                expires_at := now + cfg.REFRESH_TOKEN_EXPIRE_DAYS * 86400
                revoked := false }] }) ∧
    findRefreshToken (tokenEndpoint env cfg s req now fresh).2 (hash_token raw)
      = some { tr with revoked := true } ∧
    (∀ now2 fresh2,
      tokenEndpoint env cfg (tokenEndpoint env cfg s req now fresh).2 req now2 fresh2
        = (.err .invalidRefreshToken, (tokenEndpoint env cfg s req now fresh).2)) := by
  have htr : optTruthy (some raw) = true := by
    simpa [optTruthy] using fun hh => hraw ((String.isEmpty_iff raw).mp hh)
  have hmain : tokenEndpoint env cfg s req now fresh
      = handleRefreshTokenGrant cfg s client req.refresh_token now fresh := by
    unfold tokenEndpoint
    simp only [hclient]
    rw [if_neg (by simp [hactive]), if_neg (by simp [hsec1]),
      if_neg (by simp [hsec2]), hgrant, if_neg (by decide), if_pos rfl]
  have hhand : handleRefreshTokenGrant cfg s client req.refresh_token now fresh =
      (.ok { access_token := { sub := user.id, scope := tr.scope, client_id := client.client_id }
             token_type := "Bearer"
             expires_in := cfg.ACCESS_TOKEN_EXPIRE_MINUTES * 60
             refresh_token := fresh
             scope := tr.scope
             id_token := none },
       { s with refresh_tokens :=
           revokeMatching s.refresh_tokens (hash_token raw) ++
             [{ token_hash := hash_token fresh
                user_id := user.id
                client_id := some client.id
                scope := tr.scope
                expires_at := now + cfg.REFRESH_TOKEN_EXPIRE_DAYS * 86400
                revoked := false }] }) := by
    unfold handleRefreshTokenGrant
    rw [hrt, if_neg (by simp [htr])]
    simp only [Option.getD_some, hfind]
    rw [if_neg (by simp [hvalid]), if_neg (by simp [hcl])]
    simp only [huser]
    rw [if_neg (by simp [huact])]
  have hres := hmain.trans hhand
  refine ⟨hres, ?_, ?_⟩
  · rw [hres]
    exact findRefreshToken_after_rotation s.refresh_tokens (hash_token raw) tr _ hfind
  · intro now2 fresh2
    rw [hres]
    have hc2 : findClient
        ({ s with refresh_tokens :=
            revokeMatching s.refresh_tokens (hash_token raw) ++
              [{ token_hash := hash_token fresh
                 user_id := user.id
                 client_id := some client.id
                 scope := tr.scope
                 expires_at := now + cfg.REFRESH_TOKEN_EXPIRE_DAYS * 86400
                 revoked := false }] } : DBState) req.client_id = some client := hclient
    have hf2 := findRefreshToken_after_rotation s.refresh_tokens (hash_token raw) tr
      { token_hash := hash_token fresh
        user_id := user.id
        client_id := some client.id
        scope := tr.scope
        expires_at := now + cfg.REFRESH_TOKEN_EXPIRE_DAYS * 86400
        revoked := false } hfind
    have hf2dbs : findRefreshToken
        ({ s with refresh_tokens :=
            revokeMatching s.refresh_tokens (hash_token raw) ++
              [{ token_hash := hash_token fresh
                 user_id := user.id
                 client_id := some client.id
                 scope := tr.scope
                 expires_at := now + cfg.REFRESH_TOKEN_EXPIRE_DAYS * 86400
                 revoked := false }] } : DBState) (hash_token raw)
        = some { tr with revoked := true } := hf2
    unfold tokenEndpoint
    simp only [hc2]
    rw [if_neg (by simp [hactive]), if_neg (by simp [hsec1]),
      if_neg (by simp [hsec2]), hgrant, if_neg (by decide), if_pos rfl]
    unfold handleRefreshTokenGrant
    rw [hrt, if_neg (by simp [htr])]
    simp only [Option.getD_some, hf2dbs]
    rw [if_pos (by simp [RefreshToken.is_valid])]

/-- Token issuance marks exactly the consumed code used. -/
theorem issueAuthCodeTokens_codes (cfg : Settings) (s : DBState)
    (client : OAuthClient) (a : OAuthAuthorizationCode) (now : Nat) (fr : String) :
    codesPreserved s (issueAuthCodeTokens cfg s client a now fr).2.auth_codes := by
  unfold issueAuthCodeTokens
  repeat' (first | split | dsimp only)
  all_goals exact Or.inr (Or.inl ⟨_, rfl⟩)

/-- The authorization_code handler leaves codes alone or marks one used. -/
theorem handleAuthCode_codes (cfg : Settings) (s : DBState) (client : OAuthClient)
    (c r v : Option String) (now : Nat) (fr : String) :
    codesPreserved s (handleAuthorizationCodeGrant cfg s client c r v now fr).2.auth_codes := by
  unfold handleAuthorizationCodeGrant
  repeat' (first | split | dsimp only)
  all_goals first
  | exact Or.inl rfl
  | exact issueAuthCodeTokens_codes _ _ _ _ _ _

/-- The refresh handler never touches the code table. -/
theorem handleRefresh_codes (cfg : Settings) (s : DBState) (client : OAuthClient)
    (rt : Option String) (now : Nat) (fr : String) :
    codesPreserved s (handleRefreshTokenGrant cfg s client rt now fr).2.auth_codes := by
  unfold handleRefreshTokenGrant
  repeat' (first | split | dsimp only)
  all_goals exact Or.inl rfl

/-- `/token` only ever leaves the code table alone or marks one code used. -/
theorem tokenEndpoint_auth_codes (env : Env) (cfg : Settings) (s : DBState)
    (req : TokenRequest) (now : Nat) (fr : String) :
    codesPreserved s (tokenEndpoint env cfg s req now fr).2.auth_codes := by
  unfold tokenEndpoint
  repeat' (first | split | dsimp only)
  all_goals first
  | exact Or.inl rfl
  | exact handleAuthCode_codes _ _ _ _ _ _ _ _
  | exact handleRefresh_codes _ _ _ _ _ _

/-- `/authorize` only ever leaves the code table alone or appends one code. -/
theorem authorizeEndpoint_auth_codes (cfg : Settings) (s : DBState)
    (req : AuthorizeRequest) (cu : Option Nat) (url fc : String) (now : Nat) :
    codesPreserved s (authorizeEndpoint cfg s req cu url fc now).2.auth_codes := by
  unfold authorizeEndpoint
  repeat' (first | split | dsimp only)
  all_goals first
  | exact Or.inl rfl
  | exact Or.inr (Or.inl ⟨_, rfl⟩)
  | exact Or.inr (Or.inr ⟨_, rfl⟩)

/-- Marking any code used preserves redeemed-ness of every code. -/
theorem codeUsed_markCodeUsed (l : List OAuthAuthorizationCode) (cs cs' : String)
    (h : ∃ a, l.find? (fun a => a.code == cs) = some a ∧ a.used = true) :
    ∃ a, (markCodeUsed l cs').find? (fun a => a.code == cs) = some a ∧ a.used = true := by
  obtain ⟨a, hfind, hused⟩ := h
  rw [markCodeUsed_find?, hfind]
  refine ⟨_, rfl, ?_⟩
  by_cases hc : a.code == cs' <;> simp [hc, hused]

/-- Appending a fresh code preserves redeemed-ness of every existing code. -/
theorem codeUsed_append (l : List OAuthAuthorizationCode) (cs : String)
    (x : OAuthAuthorizationCode)
    (h : ∃ a, l.find? (fun a => a.code == cs) = some a ∧ a.used = true) :
    ∃ a, (l ++ [x]).find? (fun a => a.code == cs) = some a ∧ a.used = true := by
  obtain ⟨a, hfind, hused⟩ := h
  rw [List.find?_append, hfind]
  exact ⟨a, rfl, hused⟩

/-- Each admissible code-table shape keeps a redeemed code redeemed. -/
theorem codeUsed_of_codesPreserved (s : DBState) (l : List OAuthAuthorizationCode)
    (cs : String) (hp : codesPreserved s l) (h : codeUsedIn s cs) :
    ∃ a, l.find? (fun a => a.code == cs) = some a ∧ a.used = true := by
  unfold codeUsedIn findAuthCode at h
  rcases hp with heq | ⟨cs', heq⟩ | ⟨ac, heq⟩
  · rw [heq]; exact h
  · rw [heq]; exact codeUsed_markCodeUsed s.auth_codes cs cs' h
  · rw [heq]; exact codeUsed_append s.auth_codes cs ac h

/-- No single request un-redeems a redeemed authorization code. -/
theorem stepOp_preserves_codeUsedIn (env : Env) (cfg : Settings) (op : Op)
    (s : DBState) (cs : String) (h : codeUsedIn s cs) :
    codeUsedIn (stepOp env cfg s op) cs := by
  cases op with
  | tokenOp req now fr =>
    exact codeUsed_of_codesPreserved s _ cs (tokenEndpoint_auth_codes env cfg s req now fr) h
  | revokeOp v => exact h
  | authorizeOp req cu url fc now =>
    exact codeUsed_of_codesPreserved s _ cs (authorizeEndpoint_auth_codes cfg s req cu url fc now) h

/-- No request sequence un-redeems a redeemed authorization code. -/
theorem applyOps_preserves_codeUsedIn (env : Env) (cfg : Settings) (ops : List Op) :
    ∀ (s : DBState) (cs : String), codeUsedIn s cs → codeUsedIn (applyOps env cfg s ops) cs := by
  induction ops with
  | nil => exact fun s cs h => h
  | cons op rest ih =>
    intro s cs h
    exact ih _ _ (stepOp_preserves_codeUsedIn env cfg op s cs h)

/-- Presenting a redeemed code at `/token` can never yield a token. -/
theorem exchange_of_used_code_fails (env : Env) (cfg : Settings) (s : DBState)
    (req : TokenRequest) (now : Nat) (fr : String) (cs : String)
    (hgrant : req.grant_type = "authorization_code")
    (hcode : req.code = some cs)
    (hused : codeUsedIn s cs) :
    (tokenEndpoint env cfg s req now fr).1.isOk = false := by
  obtain ⟨a, hfind, haused⟩ := hused
  unfold tokenEndpoint
  cases hfc : findClient s req.client_id with
  | none => simp only [hfc]; rfl
  | some client =>
    simp only [hfc]
    by_cases h1 : (!client.is_active) = true
    · rw [if_pos h1]; rfl
    · rw [if_neg h1]
      by_cases h2 : (client.is_confidential && !(optTruthy req.client_secret)) = true
      · rw [if_pos h2]; rfl
      · rw [if_neg h2]
        by_cases h3 : (client.is_confidential && !(env.verifyPassword
            (req.client_secret.getD "") (client.client_secret_hash.getD ""))) = true
        · rw [if_pos h3]; rfl
        · rw [if_neg h3, hgrant, if_pos rfl]
          unfold handleAuthorizationCodeGrant
          rw [hcode]
          by_cases hemp : optTruthy (some cs) = true
          · rw [if_neg (by simp [hemp])]
            simp only [Option.getD_some, hfind]
            rw [if_pos (by simp [OAuthAuthorizationCode.is_valid, haused])]
            rfl
          · rw [if_pos (by simpa using hemp)]
            rfl

/-- C1: an exchange of a valid authorization code succeeds and commits
`used = true` on that code's row; thereafter the same code is rejected —
immediately with 400 `Authorization code expired or already used` (the
invalid_grant-class response), and permanently: after ANY further sequence
of token/revoke/authorize requests, an exchange presenting the code can
never yield a token.  A code row is valid iff it is unused and unexpired. -/
theorem auth_code_single_use
    (env : Env) (cfg : Settings) (s : DBState) (req : TokenRequest)
    (now : Nat) (fr : String) (client : OAuthClient)
    (a : OAuthAuthorizationCode) (user : UserRec) (cs : String)
    (hclient : findClient s req.client_id = some client)
    (hactive : client.is_active = true)
    (hsec1 : (client.is_confidential && !(optTruthy req.client_secret)) = false)
    (hsec2 : (client.is_confidential && !(env.verifyPassword
      (req.client_secret.getD "") (client.client_secret_hash.getD ""))) = false)
    (hgrant : req.grant_type = "authorization_code")
    (hcode : req.code = some cs) (hcs : cs ≠ "")
    (hfind : findAuthCode s cs = some a)
    (hvalid : a.is_valid now = true)
    (hclid : a.client_id = client.id)
    (hru : req.redirect_uri = some a.redirect_uri)
    (hpk : a.requires_pkce = false ∨
      (optTruthy req.code_verifier = true ∧
       (match a.code_challenge_method with
        | some m => verify_code_challenge (req.code_verifier.getD "")
            (a.code_challenge.getD "") m
        | none => some false) = some true))
    (huser : findUser s a.user_id = some user) :
    (tokenEndpoint env cfg s req now fr).1.isOk = true ∧
    findAuthCode (tokenEndpoint env cfg s req now fr).2 cs = some { a with used := true } ∧
    (∀ now2 fr2, tokenEndpoint env cfg (tokenEndpoint env cfg s req now fr).2 req now2 fr2
      = (.err .authCodeExpiredOrUsed, (tokenEndpoint env cfg s req now fr).2)) ∧
    (∀ (ops : List Op) (req2 : TokenRequest) (now2 : Nat) (fr2 : String),
      req2.grant_type = "authorization_code" → req2.code = some cs →
      (tokenEndpoint env cfg (applyOps env cfg (tokenEndpoint env cfg s req now fr).2 ops)
        req2 now2 fr2).1.isOk = false) ∧
    (∀ (b : OAuthAuthorizationCode) (t : Nat),
      b.is_valid t = true ↔ (b.used = false ∧ ¬ t > b.expires_at)) := by
  have hac : a.code = cs := by simpa using List.find?_some hfind
  have htrue : optTruthy (some cs) = true := by
    simpa [optTruthy] using fun h => hcs ((String.isEmpty_iff cs).mp h)
  have hmain : tokenEndpoint env cfg s req now fr
      = handleAuthorizationCodeGrant cfg s client req.code req.redirect_uri
          req.code_verifier now fr := by
    unfold tokenEndpoint
    simp only [hclient]
    rw [if_neg (by simp [hactive]), if_neg (by simp [hsec1]), if_neg (by simp [hsec2]),
      hgrant, if_pos rfl]
  have hissue : issueAuthCodeTokens cfg s client a now fr =
      (.ok { access_token := { sub := user.id, scope := a.scope, client_id := client.client_id }
             token_type := "Bearer"
             expires_in := cfg.ACCESS_TOKEN_EXPIRE_MINUTES * 60
             refresh_token := fr
             scope := a.scope
             id_token := if (scopeList a.scope).contains "openid"
               then some { sub := user.id, aud := client.client_id, nonce := a.nonce }
               else none },
       { s with auth_codes := markCodeUsed s.auth_codes a.code
                refresh_tokens := s.refresh_tokens ++
                  [{ token_hash := hash_token fr
                     user_id := user.id
                     client_id := some client.id
                     scope := a.scope
                     expires_at := now + cfg.REFRESH_TOKEN_EXPIRE_DAYS * 86400
                     revoked := false }] }) := by
    unfold issueAuthCodeTokens
    have huser1 : findUser
        ({ s with auth_codes := markCodeUsed s.auth_codes a.code } : DBState) a.user_id
        = some user := huser
    simp only [huser1]
  have hhand : handleAuthorizationCodeGrant cfg s client req.code req.redirect_uri
      req.code_verifier now fr = issueAuthCodeTokens cfg s client a now fr := by
    unfold handleAuthorizationCodeGrant
    rw [hcode, if_neg (by simp [htrue])]
    simp only [Option.getD_some, hfind]
    rw [if_neg (by simp [hvalid]), if_neg (by simp [hclid]), if_neg (by simp [hru])]
    rcases hpk with hnopk | ⟨hcv, hver⟩
    · rw [if_neg (by simp [hnopk])]
    · by_cases hreq : a.requires_pkce = true
      · rw [if_pos hreq, if_neg (by simp [hcv])]
        simp only [hver]
      · rw [if_neg hreq]
  have hres := hmain.trans (hhand.trans hissue)
  have hf2 : findAuthCode (tokenEndpoint env cfg s req now fr).2 cs
      = some { a with used := true } := by
    simp only [hres]
    show (markCodeUsed s.auth_codes a.code).find? (fun x => x.code == cs)
      = some { a with used := true }
    rw [markCodeUsed_find?]
    have hfind' : s.auth_codes.find? (fun x => x.code == cs) = some a := hfind
    rw [hfind']
    simp [hac]
  have hc2 : findClient (tokenEndpoint env cfg s req now fr).2 req.client_id
      = some client := by
    simp only [hres]
    exact hclient
  refine ⟨by simp only [hres]; rfl, hf2, ?_, ?_, ?_⟩
  · intro now2 fr2
    obtain ⟨s2, hs2, hc2', hf2'⟩ :
        ∃ s2, (tokenEndpoint env cfg s req now fr).2 = s2 ∧
          findClient s2 req.client_id = some client ∧
          findAuthCode s2 cs = some { a with used := true } := ⟨_, rfl, hc2, hf2⟩
    rw [hs2]
    unfold tokenEndpoint
    simp only [hc2']
    rw [if_neg (by simp [hactive]), if_neg (by simp [hsec1]), if_neg (by simp [hsec2]),
      hgrant, if_pos rfl]
    unfold handleAuthorizationCodeGrant
    rw [hcode, if_neg (by simp [htrue])]
    simp only [Option.getD_some, hf2']
    rw [if_pos (by simp [OAuthAuthorizationCode.is_valid])]
  · intro ops req2 now2 fr2 hg2 hcode2
    refine exchange_of_used_code_fails env cfg _ req2 now2 fr2 cs hg2 hcode2 ?_
    exact applyOps_preserves_codeUsedIn env cfg ops _ cs ⟨{ a with used := true }, hf2, rfl⟩
  · intro b t
    simp [OAuthAuthorizationCode.is_valid, OAuthAuthorizationCode.is_expired]

/-- C1 witness: the first exchange succeeds; replaying `c1` then fails. -/
theorem auth_code_single_use_witness :
    (tokenEndpoint idEnv testSettings okState okReq 0 "fr1").1.isOk = true ∧
    tokenEndpoint idEnv testSettings
        (tokenEndpoint idEnv testSettings okState okReq 0 "fr1").2 okReq 5 "fr2"
      = (.err .authCodeExpiredOrUsed,
         (tokenEndpoint idEnv testSettings okState okReq 0 "fr1").2) := by
  have h := auth_code_single_use idEnv testSettings okState okReq 0 "fr1"
    pkClient okCode { id := 7, is_active := true } "c1"
    rfl rfl rfl rfl rfl rfl (by decide) rfl rfl rfl rfl (Or.inl rfl) rfl
  exact ⟨h.1, h.2.2.1 5 "fr2"⟩

/-- C4 witness: rotation succeeds once; replaying `oldraw` fails. -/
theorem refresh_rotation_revokes_and_mints_witness :
    (tokenEndpoint idEnv testSettings rotState rotReq 0 "newraw").1
      = .ok { access_token := { sub := 7, scope := some "openid", client_id := "app1" }
              token_type := "Bearer", expires_in := 900
              refresh_token := "newraw", scope := some "openid", id_token := none } ∧
    tokenEndpoint idEnv testSettings
        (tokenEndpoint idEnv testSettings rotState rotReq 0 "newraw").2 rotReq 5 "other"
      = (.err .invalidRefreshToken,
         (tokenEndpoint idEnv testSettings rotState rotReq 0 "newraw").2) := by
  have h := refresh_rotation_revokes_and_mints idEnv testSettings rotState rotReq 0 "newraw"
    pkClient rotTok "oldraw" { id := 7, is_active := true }
    rfl rfl rfl rfl rfl rfl (by decide) rfl rfl rfl rfl rfl
  exact ⟨by rw [h.1]; rfl, h.2.2 5 "other"⟩

/-- C2 (exhibiting the half-committed state the claim forbids): the exchange fails
with 400 `User not found` — no token is returned — yet the committed state
has the code marked `used = true`, and no refresh token was stored. -/
theorem auth_code_burned_on_missing_user :
    (tokenEndpoint idEnv testSettings orphanState orphanReq 0 "fresh").1
      = .err .userNotFound ∧
    (findAuthCode (tokenEndpoint idEnv testSettings orphanState orphanReq 0 "fresh").2 "c2").map
      (fun a => a.used) = some true ∧
    (tokenEndpoint idEnv testSettings orphanState orphanReq 0 "fresh").2.refresh_tokens = [] := by
  exact ⟨by decide, by decide, by decide⟩

end SSO

